import Mathlib

set_option maxHeartbeats 1000000

/-! Shallow embedding of the ai-coding-assignment-evaluator evaluation pipeline:
the structural complexity analyzer (`src/engine/LogicInterrogator.ts`), the
edge-case test harnesses (`LogicInterrogator.executeTests` and the README's
`runTestSuite`), and the scoring / technical-debt engine (`EvaluationEngine`,
`src/unnamed/part_002`), together with theorems settling the specification's
claims against these definitions.  JavaScript numbers are modelled as exact
rationals (`ℚ`), extended with `NaN` and the infinities where the code can
produce them. -/

/-- Character-list matching: does `pat` occur at the head of `l`?  This is the
position-wise test underlying JavaScript `String.prototype.includes`. -/
def matchesAt : List Char → List Char → Bool
  | [], _ => true
  | _ :: _, [] => false
  | a :: as, b :: bs => a == b && matchesAt as bs

/-- Does `pat` occur anywhere in `l`?  (JavaScript `String.prototype.includes`
at the character-list level.) -/
def subOccurs (pat : List Char) : List Char → Bool
  | [] => matchesAt pat []
  | c :: cs => matchesAt pat (c :: cs) || subOccurs pat cs

/-- JavaScript `s.includes(pat)` on Lean strings. -/
def strIncludes (s pat : String) : Bool := subOccurs pat.data s.data

/-- Count the occurrences of the two-character pattern `a b` in a character
list (JavaScript `(s.match(/ab/g) || []).length` for a two-character pattern;
for two-character patterns global-regex matches cannot overlap, so counting
every matching position is equivalent). -/
def countPairOcc (a b : Char) : List Char → Nat
  | x :: y :: rest => (if x = a ∧ y = b then 1 else 0) + countPairOcc a b (y :: rest)
  | _ => 0

/-! ### The syntax-tree model

`LogicInterrogator.analyzeComplexity` parses the submission with acorn and
walks the resulting ESTree AST.  The walk only distinguishes loop statements
(`ForStatement`, `WhileStatement`, `DoWhileStatement`), function nodes
(`FunctionDeclaration`, `FunctionExpression`, `ArrowFunctionExpression`),
`AwaitExpression`, and "everything else", and then generically recurses into
every object-valued / array-valued property of the node.  We model a node by
that classification: a loop node carries its non-`body` node children
(`init`/`test`/`update` for `for`, `test` for `while`/`do-while`) and its
`body`; a function node carries its optional `id` name and its generic
children; a call expression carries the callee's name when the callee is a
plain identifier (used only by the spec-side self-call predicate - the
traversal treats it generically); every other node is `other` with its node
children in property order. -/

inductive LoopKind where
  | forLoop
  | whileLoop
  | doWhileLoop
deriving DecidableEq

mutual
inductive Node where
  | loop (kind : LoopKind) (others : NodeList) (body : Node)
  | funcNode (id : Option String) (children : NodeList)
  | awaitNode (children : NodeList)
  | callNode (calleeName : Option String) (children : NodeList)
  | other (children : NodeList)
inductive NodeList where
  | nil
  | cons (head : Node) (tail : NodeList)
end

/-- Build a `NodeList` from a Lean list (notation convenience only). -/
def NodeList.ofList : List Node → NodeList
  | [] => .nil
  | n :: ns => .cons n (NodeList.ofList ns)

/-- The mutable analysis record threaded through the AST walk of
`LogicInterrogator.analyzeComplexity` (its `loopDepth`, `hasNestedLoops`,
`hasRecursion` and `hasAsyncOperations` fields; `currentLoopDepth` is passed
separately since its increment/decrement brackets the `body` visit). -/
structure TravState where
  maxLoopDepth : Nat
  hasNestedLoops : Bool
  hasRecursion : Bool
  hasAsyncOperations : Bool
deriving DecidableEq

/-- `LogicInterrogator.hasRecursiveCall`: the source computes
`const code = ast.toString()` - on an acorn `Node` object this yields the
string `"[object Object]"`, not the program text - and then checks
`code.includes(functionName + "(")`. -/
def astToString : String := "[object Object]"

/-- The recursion heuristic of `LogicInterrogator.hasRecursiveCall`, faithful
to the source: it searches for `functionName + "("` inside
`ast.toString() = "[object Object]"`. -/
def hasRecursiveCall (functionName : String) : Bool :=
  subOccurs (functionName.data ++ [Char.ofNat 40]) astToString.data

mutual
/-- The AST walk `analyzeNode` of `LogicInterrogator.analyzeComplexity`.
`d` is `currentLoopDepth` on entry.  For a loop node the source increments
the depth, records `max`/`hasNestedLoops`, recurses into `node.body`,
decrements, and then the generic child loop re-visits all node children
(including `body` a second time) at the restored depth.  For `do-while`
acorn stores `body` before `test`, so the generic pass visits them in the
opposite order; since every state update is a `max` or an `or`, the visit
order does not affect the result.  For function nodes the source checks the
recursion heuristic when `node.id` is present and then recurses generically
(the depth counter is not reset inside function bodies). -/
def analyzeNode (d : Nat) (s : TravState) : Node → TravState
  | .loop _ others body =>
      let s1 : TravState :=
        { s with maxLoopDepth := Nat.max s.maxLoopDepth (d + 1),
                 hasNestedLoops := s.hasNestedLoops || decide (d + 1 > 1) }
      let s2 := analyzeNode (d + 1) s1 body
      let s3 := analyzeNodeList d s2 others
      analyzeNode d s3 body
  | .funcNode id children =>
      let s1 : TravState :=
        match id with
        | some nm => { s with hasRecursion := s.hasRecursion || hasRecursiveCall nm }
        | none => s
      analyzeNodeList d s1 children
  | .awaitNode children =>
      analyzeNodeList d { s with hasAsyncOperations := true } children
  | .callNode _ children =>
      analyzeNodeList d s children
  | .other children =>
      analyzeNodeList d s children
/-- Generic child traversal (the `for (const key in node)` loop). -/
def analyzeNodeList (d : Nat) (s : TravState) : NodeList → TravState
  | .nil => s
  | .cons h t => analyzeNodeList d (analyzeNode d s h) t
end

/-- `ComplexityAnalysis` record of `src/types` as produced by
`LogicInterrogator.analyzeComplexity`. -/
structure ComplexityAnalysis where
  timeComplexity : String
  spaceComplexity : String
  loopDepth : Nat
  hasNestedLoops : Bool
  hasRecursion : Bool
  hasAsyncOperations : Bool
deriving DecidableEq

/-- `LogicInterrogator.determineTimeComplexity`. -/
def determineTimeComplexity (code : String) (a : ComplexityAnalysis) : String :=
  if a.hasNestedLoops then "O(n²)"
  else if a.hasRecursion then "O(n)"
  else if strIncludes code ".sort(" then "O(n log n)"
  else if a.loopDepth > 0 then "O(n)"
  else "O(1)"

/-- `LogicInterrogator.determineSpaceComplexity`. -/
def determineSpaceComplexity (code : String) (a : ComplexityAnalysis) : String :=
  if a.hasNestedLoops then "O(n²)"
  else if a.loopDepth > 0 || strIncludes code ".map(" then "O(n)"
  else "O(1)"

/-- `LogicInterrogator.analyzeComplexity` on a submission whose source text is
`code` and whose acorn parse succeeded with tree `ast` (the parse-failure
fallback path is not modelled; all claims below concern submissions that
parse). -/
def analyzeComplexity (code : String) (ast : Node) : ComplexityAnalysis :=
  let s := analyzeNode 0 ⟨0, false, false, false⟩ ast
  let base : ComplexityAnalysis :=
    ⟨"O(1)", "O(1)", s.maxLoopDepth, s.hasNestedLoops, s.hasRecursion, s.hasAsyncOperations⟩
  { base with
      timeComplexity := determineTimeComplexity code base,
      spaceComplexity := determineSpaceComplexity code base }

/-! ### Spec-side syntactic predicates

These follow the specification's wording ("two syntactically nested loop
statements", "a user-defined function contains a call to itself by name",
"zero loop statements") rather than the analyzer's internals; the theorems
relate them to the analyzer. -/

mutual
/-- Does the subtree contain a loop statement? -/
def containsLoop : Node → Bool
  | .loop _ _ _ => true
  | .funcNode _ ch => containsLoopL ch
  | .awaitNode ch => containsLoopL ch
  | .callNode _ ch => containsLoopL ch
  | .other ch => containsLoopL ch
/-- Does some node of the list contain a loop statement? -/
def containsLoopL : NodeList → Bool
  | .nil => false
  | .cons h t => containsLoop h || containsLoopL t
end

mutual
/-- Does the subtree contain a loop statement whose body subtree contains
another loop statement (i.e. two syntactically nested loop statements)? -/
def hasNestedLoopStmt : Node → Bool
  | .loop _ others body => containsLoop body || hasNestedLoopStmtL others || hasNestedLoopStmt body
  | .funcNode _ ch => hasNestedLoopStmtL ch
  | .awaitNode ch => hasNestedLoopStmtL ch
  | .callNode _ ch => hasNestedLoopStmtL ch
  | .other ch => hasNestedLoopStmtL ch
/-- List version of `hasNestedLoopStmt`. -/
def hasNestedLoopStmtL : NodeList → Bool
  | .nil => false
  | .cons h t => hasNestedLoopStmt h || hasNestedLoopStmtL t
end

mutual
/-- Does the subtree contain a call expression whose callee is the plain
identifier `nm`? -/
def containsCallTo (nm : String) : Node → Bool
  | .loop _ others body => containsCallToL nm others || containsCallTo nm body
  | .funcNode _ ch => containsCallToL nm ch
  | .awaitNode ch => containsCallToL nm ch
  | .callNode calleeName ch => calleeName == some nm || containsCallToL nm ch
  | .other ch => containsCallToL nm ch
/-- List version of `containsCallTo`. -/
def containsCallToL (nm : String) : NodeList → Bool
  | .nil => false
  | .cons h t => containsCallTo nm h || containsCallToL nm t
end

mutual
/-- Does the subtree contain a named function one of whose descendants is a
call to that function's own name ("a user-defined function contains a call to
itself by name")? -/
def hasSelfCall : Node → Bool
  | .loop _ others body => hasSelfCallL others || hasSelfCall body
  | .funcNode (some nm) ch => containsCallToL nm ch || hasSelfCallL ch
  | .funcNode none ch => hasSelfCallL ch
  | .awaitNode ch => hasSelfCallL ch
  | .callNode _ ch => hasSelfCallL ch
  | .other ch => hasSelfCallL ch
/-- List version of `hasSelfCall`. -/
def hasSelfCallL : NodeList → Bool
  | .nil => false
  | .cons h t => hasSelfCall h || hasSelfCallL t
end

/-! ### JavaScript values and numbers -/

/-- JavaScript numbers as produced by the harness's aggregate statistics:
exact rationals extended with `NaN` and the two infinities (the only
non-finite values the modelled code can produce). -/
inductive JSNum where
  | num (q : ℚ)
  | nan
  | posInfty
  | negInfty
deriving DecidableEq

/-- JavaScript division `total / count` where `count` is a list length:
division by zero yields `NaN` when the numerator is zero and an infinity
otherwise. -/
def jsDivByCount (total : ℚ) (count : Nat) : JSNum :=
  if count = 0 then
    if total = 0 then .nan
    else if total > 0 then .posInfty
    else .negInfty
  else .num (total / count)

/-- JavaScript `Math.max(...xs)`: `-Infinity` on an empty argument list. -/
def jsMaxList : List ℚ → JSNum
  | [] => .negInfty
  | x :: xs => .num (xs.foldl max x)

/-- JavaScript `Math.min(...xs)`: `Infinity` on an empty argument list. -/
def jsMinList : List ℚ → JSNum
  | [] => .posInfty
  | x :: xs => .num (xs.foldl min x)

/-- JavaScript `Math.round(t * 100) / 100` (used on per-test execution
times). -/
def round100 (t : ℚ) : ℚ := (round (t * 100) : ℚ) / 100

/-! JavaScript values occurring in the harness: `null`, `undefined`,
booleans, numbers, strings, arrays and plain objects. -/
mutual
inductive Value where
  | null
  | undef
  | bool (b : Bool)
  | num (q : ℚ)
  | str (s : String)
  | arr (elems : ValueList)
  | obj (fields : FieldList)
inductive ValueList where
  | nil
  | cons (head : Value) (tail : ValueList)
inductive FieldList where
  | nil
  | cons (key : String) (val : Value) (tail : FieldList)
end

/-- Build a `ValueList` from a Lean list. -/
def ValueList.ofList : List Value → ValueList
  | [] => .nil
  | v :: vs => .cons v (ValueList.ofList vs)

/-- Is this value the JavaScript `null` literal? -/
def Value.isNullB : Value → Bool
  | .null => true
  | _ => false

/-! The image of a value under `JSON.stringify`, represented structurally:
`JSON.stringify` maps `undefined` at top level to no output at all, maps
`undefined` array elements to `null`, and drops `undefined`-valued object
properties.  Two values produce the same `JSON.stringify` string exactly when
they have the same canonical `JValue` (the serializer is injective on this
value space). -/
mutual
inductive JValue where
  | jnull
  | jbool (b : Bool)
  | jnum (q : ℚ)
  | jstr (s : String)
  | jarr (elems : JList)
  | jobj (fields : JFields)
inductive JList where
  | nil
  | cons (head : JValue) (tail : JList)
inductive JFields where
  | nil
  | cons (key : String) (val : JValue) (tail : JFields)
end

mutual
/-- Canonicalization of a value under `JSON.stringify` (`none` = the
serializer returns `undefined`, i.e. no output). -/
def canon : Value → Option JValue
  | .null => some .jnull
  | .undef => none
  | .bool b => some (.jbool b)
  | .num q => some (.jnum q)
  | .str s => some (.jstr s)
  | .arr l => some (.jarr (canonList l))
  | .obj f => some (.jobj (canonFields f))
/-- Array elements serializing to `undefined` are emitted as `null`. -/
def canonList : ValueList → JList
  | .nil => .nil
  | .cons v t =>
      .cons (match canon v with | some jv => jv | none => .jnull) (canonList t)
/-- Object properties serializing to `undefined` are dropped. -/
def canonFields : FieldList → JFields
  | .nil => .nil
  | .cons k v t =>
      match canon v with
      | some jv => .cons k jv (canonFields t)
      | none => canonFields t
end

mutual
/-- Structural equality of canonical JSON values. -/
def jbeq : JValue → JValue → Bool
  | .jnull, .jnull => true
  | .jbool a, .jbool b => a == b
  | .jnum a, .jnum b => decide (a = b)
  | .jstr a, .jstr b => a == b
  | .jarr a, .jarr b => jbeqList a b
  | .jobj a, .jobj b => jbeqFields a b
  | _, _ => false
/-- Element-wise equality of canonical JSON arrays. -/
def jbeqList : JList → JList → Bool
  | .nil, .nil => true
  | .cons a as, .cons b bs => jbeq a b && jbeqList as bs
  | _, _ => false
/-- Field-wise equality of canonical JSON objects. -/
def jbeqFields : JFields → JFields → Bool
  | .nil, .nil => true
  | .cons k a as, .cons k' b bs => k == k' && jbeq a b && jbeqFields as bs
  | _, _ => false
end

/-- The comparison `JSON.stringify(a) === JSON.stringify(b)` used by the
README harness: when both serializations are `undefined` the `===` comparison
is `undefined === undefined`, which is `true`. -/
def stringifyEq (a b : Value) : Bool :=
  match canon a, canon b with
  | none, none => true
  | some x, some y => jbeq x y
  | _, _ => false

/-- JavaScript strict equality `a === b` restricted to the primitive cases
(for arrays and objects `===` is reference equality, which is `false` for the
independently-constructed values compared here). -/
def primEq : Value → Value → Bool
  | .null, .null => true
  | .undef, .undef => true
  | .bool a, .bool b => a == b
  | .num a, .num b => decide (a = b)
  | .str a, .str b => a == b
  | _, _ => false

/-- `LogicInterrogator.compareResults`: `actual === expected`, with a
`JSON.stringify`-based structural comparison when both sides are arrays. -/
def compareResults (actual expected : Value) : Bool :=
  match actual, expected with
  | .arr a, .arr b => jbeqList (canonList a) (canonList b)
  | a, b => primEq a b

/-! ### The LogicInterrogator test harness (`executeTests`)

`LogicInterrogator.executeCode` builds
`new Function(...sandboxKeys, code + "\nreturn main(input);")` and invokes it.
The submission's observable behaviour on a given test input is therefore a
value or a thrown error; we model it as an oracle
`behavior : Value → Except String Value` (the error carries the thrown
message; a missing `main` is an oracle error as well, the `ReferenceError`
message).  Wall-clock timing is modelled by an oracle `dur` giving the
measured duration of each test case. -/

/-- A test case as handed to `executeTests` (the `TestResult` records built by
`generateEdgeCaseTests` before execution; their pre-execution `actual`,
`passed`, `executionTime` placeholders are overwritten and are omitted
here). -/
structure LITestCase where
  id : String
  name : String
  category : String
  input : Value
  expected : Value

/-- A `TestResult` after execution by `executeTests`. -/
structure LIResult where
  id : String
  name : String
  category : String
  input : Value
  expected : Value
  actual : Option Value
  passed : Bool
  executionTime : ℚ
  error : Option String

/-- `LogicInterrogator.executeCode`: any error thrown by the submission (or by
`new Function` itself) is caught and re-thrown as
`new Error("Execution error: " + error)`. -/
def executeCodeLI (behavior : Value → Except String Value) (input : Value) :
    Except String Value :=
  match behavior input with
  | .ok v => .ok v
  | .error e => .error ("Execution error: " ++ e)

/-- One iteration of the `testCases.forEach` loop of
`LogicInterrogator.executeTests`. -/
def runOneLI (behavior : Value → Except String Value) (dur : LITestCase → ℚ)
    (tc : LITestCase) : LIResult :=
  match executeCodeLI behavior tc.input with
  | .ok v =>
      { id := tc.id, name := tc.name, category := tc.category,
        input := tc.input, expected := tc.expected,
        actual := some v, passed := compareResults v tc.expected,
        executionTime := round100 (dur tc), error := none }
  | .error e =>
      { id := tc.id, name := tc.name, category := tc.category,
        input := tc.input, expected := tc.expected,
        actual := none, passed := false,
        executionTime := round100 (dur tc), error := some e }

/-- A performance issue as recorded by
`LogicInterrogator.detectPerformanceIssues`. -/
structure LIPerfIssue where
  description : String
  severity : String
  testCase : String
  suggestion : String
deriving DecidableEq

/-- `LogicInterrogator.detectPerformanceIssues` with execution-time threshold
`maxExecTime` (default configuration: 1000 ms). -/
def detectPerformanceIssues (maxExecTime : ℚ) (results : List LIResult) :
    List LIPerfIssue :=
  results.filterMap fun r =>
    if r.executionTime > maxExecTime then
      some { description := "Test case " ++ r.name ++ " exceeded time limit",
             severity := "high", testCase := r.name,
             suggestion := "Optimize algorithm or add early termination" }
    else none

/-- `LogicInterrogator.estimateMemoryUsage`: twice the code length plus 100
per `[]` occurrence plus 50 per `\x7b\x7d` occurrence. -/
def estimateMemoryUsage (code : String) : Nat :=
  code.length * 2
    + countPairOcc (Char.ofNat 91) (Char.ofNat 93) code.data * 100
    + countPairOcc (Char.ofNat 123) (Char.ofNat 125) code.data * 50

/-- The `PerformanceMetrics` record computed by
`LogicInterrogator.executeTests`. -/
structure PerformanceMetrics where
  averageTime : JSNum
  maxTime : JSNum
  minTime : JSNum
  totalTime : JSNum
  memoryUsage : Nat
  issues : List LIPerfIssue

/-- `LogicInterrogator.executeTests`: runs every test case, collecting
results and execution times, then aggregates
`executionTimes.reduce((a,b) => a+b, 0) / executionTimes.length`,
`Math.max(...executionTimes)` and `Math.min(...executionTimes)`. -/
def executeTestsLI (behavior : Value → Except String Value)
    (dur : LITestCase → ℚ) (maxExecTime : ℚ) (code : String)
    (testCases : List LITestCase) : List LIResult × PerformanceMetrics :=
  let results := testCases.map (runOneLI behavior dur)
  let executionTimes := testCases.map dur
  let metrics : PerformanceMetrics :=
    { averageTime := jsDivByCount (executionTimes.foldl (· + ·) 0) executionTimes.length,
      maxTime := jsMaxList executionTimes,
      minTime := jsMinList executionTimes,
      totalTime := .num (executionTimes.foldl (· + ·) 0),
      memoryUsage := estimateMemoryUsage code,
      issues := detectPerformanceIssues maxExecTime results }
  (results, metrics)

/-! ### Silent-failure detection (`LogicInterrogator.detectSilentFailures`) -/

/-- An entry of the array returned by `detectSilentFailures`. -/
structure SilentFailureEntry where
  testCase : String
  type : String
  description : String
  suggestedFix : String
deriving DecidableEq

/-- JavaScript truthiness of the `error` field: `!result.error` is `true`
when the field is absent or the empty string. -/
def errFalsy : Option String → Bool
  | none => true
  | some s => s == ""

/-- The wrong-output entry pushed by `detectSilentFailures`. -/
def wrongOutputEntry (name : String) : SilentFailureEntry :=
  { testCase := name, type := "wrong-output",
    description := "Test " ++ name ++ " returned incorrect output without throwing an error",
    suggestedFix := "Add input validation and edge case handling" }

/-- The timeout entry pushed by `detectSilentFailures`. -/
def timeoutEntry (name : String) : SilentFailureEntry :=
  { testCase := name, type := "timeout",
    description := "Test " ++ name ++ " exceeded maximum execution time",
    suggestedFix := "Optimize algorithm complexity or add early termination" }

/-- `LogicInterrogator.detectSilentFailures` with execution-time threshold
`maxExecTime` (default configuration: 1000 ms): per result, a
`wrong-output` entry when the test failed with a falsy `error`, and a
`timeout` entry when its execution time exceeded the threshold. -/
def detectSilentFailures (maxExecTime : ℚ) (results : List LIResult) :
    List SilentFailureEntry :=
  results.flatMap fun r =>
    (if !r.passed && errFalsy r.error then [wrongOutputEntry r.name] else [])
      ++ (if r.executionTime > maxExecTime then [timeoutEntry r.name] else [])

/-! ### The scoring engine (`EvaluationEngine`, `src/unnamed/part_002`) -/

/-- The `ScoringWeights` record of the `EvaluationEngine`. -/
structure ScoringWeights where
  correctness : ℚ
  efficiency : ℚ
  readability : ℚ
  bestPractices : ℚ

/-- The default weights installed by the `EvaluationEngine` constructor. -/
def defaultWeights : ScoringWeights :=
  { correctness := 40/100, efficiency := 30/100,
    readability := 20/100, bestPractices := 10/100 }

/-- `EvaluationEngine.calculateOverallScore`: the weighted sum of the four
sub-scores, passed through `Math.round`. -/
def calculateOverallScore (w : ScoringWeights) (correctness efficiency readability bestPractices : ℚ) : ℤ :=
  round (correctness * w.correctness + efficiency * w.efficiency
    + readability * w.readability + bestPractices * w.bestPractices)

/-- Modelled from the spec: the declared invariant
`overall = 0.40·correctness + 0.30·efficiency + 0.20·readability +
0.10·bestPractices`, rounded to the nearest integer as the code does. -/
def specOverallFormula (correctness efficiency readability bestPractices : ℚ) : ℤ :=
  round ((40/100 : ℚ) * correctness + (30/100 : ℚ) * efficiency
    + (20/100 : ℚ) * readability + (10/100 : ℚ) * bestPractices)

/-- The `TechnicalDebt` record of `EvaluationEngine.assessTechnicalDebt`
(the `categories` sub-object is flattened into the four trailing fields). -/
structure TechnicalDebt where
  score : ℤ
  level : String
  estimatedHours : ℤ
  complexity : ℤ
  documentation : ℤ
  testing : ℤ
  architectural : ℤ
deriving DecidableEq

/-- `EvaluationEngine.assessTechnicalDebt` as a function of the four analysis
inputs it reads: `efficiency.score`, `readability.commentCoverage`,
`correctness.passRate` and `bestPractices.score`. -/
def assessTechnicalDebt (effScore commentCoverage passRate bpScore : ℚ) : TechnicalDebt :=
  let complexityDebt := max 0 (100 - effScore) * (4/10)
  let documentationDebt := max 0 (100 - commentCoverage) * (2/10)
  let testingDebt := max 0 (100 - passRate) * (3/10)
  let architecturalDebt := max 0 (100 - bpScore) * (1/10)
  let totalScore := complexityDebt + documentationDebt + testingDebt + architecturalDebt
  let level :=
    if totalScore ≥ 70 then "critical"
    else if totalScore ≥ 50 then "high"
    else if totalScore ≥ 30 then "medium"
    else "low"
  { score := round totalScore,
    level := level,
    estimatedHours := round (totalScore * (5/10)),
    complexity := round complexityDebt,
    documentation := round documentationDebt,
    testing := round testingDebt,
    architectural := round architecturalDebt }

/-- The exact (unrounded) total debt used internally by
`assessTechnicalDebt` for the level thresholds. -/
def totalDebt (effScore commentCoverage passRate bpScore : ℚ) : ℚ :=
  max 0 (100 - effScore) * (4/10) + max 0 (100 - commentCoverage) * (2/10)
    + max 0 (100 - passRate) * (3/10) + max 0 (100 - bpScore) * (1/10)

/-! ### The README test harness (`runTestSuite` and its registry)

The README's `runTestSuite(code, problemType)` wraps the submission in an
IIFE that, after evaluating the submission's source, dispatches on whichever
recognized entry function the source defined: `twoSum(nums, target)`,
`reverseString(str)`, `isPalindrome(str)`, `findMax(arr)`, then
`main(<JSON of test input>)`, and `return null` when none is defined.  A
submission is modelled by the outcome of each branch: the first four
branches are called with the wrapper-scope variables (not the test input),
so their per-test outcome is a constant; `main` receives the test input (the
`JSON.stringify` round trip is the identity on every registry input, so it
is modelled as the identity). -/

/-- The entry-function dispatch outcomes of one submission under the README
wrapper (`none` = `typeof f === 'function'` is false for that name). -/
structure HarnessSubmission where
  twoSum : Option (Except String Value)
  reverseString : Option (Except String Value)
  isPalindrome : Option (Except String Value)
  findMax : Option (Except String Value)
  main : Option (Value → Except String Value)

/-- A submission whose source defines none of the recognized entry
functions. -/
def noEntrySub : HarnessSubmission :=
  { twoSum := none, reverseString := none, isPalindrome := none,
    findMax := none, main := none }

/-- The README's inner `executeCode(testInput)`: dispatch in source order,
`return null` when no entry function exists, and re-throw any error as
`new Error("Runtime error: " + error.message)`. -/
def executeCodeR (sub : HarnessSubmission) (testInput : Value) :
    Except String Value :=
  let raw : Except String Value :=
    match sub.twoSum with
    | some r => r
    | none =>
      match sub.reverseString with
      | some r => r
      | none =>
        match sub.isPalindrome with
        | some r => r
        | none =>
          match sub.findMax with
          | some r => r
          | none =>
            match sub.main with
            | some f => f testInput
            | none => .ok .null
  match raw with
  | .ok v => .ok v
  | .error e => .error ("Runtime error: " ++ e)

/-- A test case of the README's `testSuites` registry. -/
structure RTestCase where
  name : String
  input : Value
  expected : Value
  category : String

/-- A problem type's entry in the README's `testSuites` registry. -/
structure RTestSuite where
  name : String
  description : String
  testCases : List RTestCase

/-- Shorthand: array of numbers. -/
def vnums (l : List ℚ) : Value := .arr (ValueList.ofList (l.map Value.num))

/-- Shorthand: the two-sum input object `\x7b nums, target \x7d`. -/
def tsInput (nums : Value) (target : ℚ) : Value :=
  .obj (.cons "nums" nums (.cons "target" (.num target) .nil))

/-- JavaScript `"a".repeat(n)`. -/
def repeatA (n : Nat) : String := String.mk (List.replicate n 'a')

/-- The `two-sum` suite of the README registry. -/
def twoSumSuite : RTestSuite :=
  { name := "Two Sum",
    description := "Find two numbers that add up to a target",
    testCases :=
      [ { name := "Empty Input", input := tsInput (vnums []) 9,
          expected := vnums [], category := "edge" },
        { name := "Null/Undefined Input", input := tsInput .null 9,
          expected := .null, category := "edge" },
        { name := "Single Element", input := tsInput (vnums [5]) 5,
          expected := vnums [], category := "edge" },
        { name := "Standard Case", input := tsInput (vnums [2, 7, 11, 15]) 9,
          expected := vnums [0, 1], category := "normal" },
        { name := "Large Dataset (10k items)",
          input := tsInput (vnums ((List.range 10000).map (fun i => (i : ℚ) + 1))) 19999,
          expected := vnums [9998, 9999], category := "performance" },
        { name := "No Solution", input := tsInput (vnums [1, 2, 3]) 7,
          expected := vnums [], category := "normal" } ] }

/-- The `string-reversal` suite of the README registry. -/
def stringReversalSuite : RTestSuite :=
  { name := "String Reversal",
    description := "Reverse a string",
    testCases :=
      [ { name := "Empty String", input := .str "", expected := .str "",
          category := "edge" },
        { name := "Null Input", input := .null, expected := .null,
          category := "edge" },
        { name := "Single Character", input := .str "a", expected := .str "a",
          category := "edge" },
        { name := "Standard Case", input := .str "hello", expected := .str "olleh",
          category := "normal" },
        { name := "Large String (10k chars)", input := .str (repeatA 10000),
          expected := .str (repeatA 10000), category := "performance" },
        { name := "Special Characters", input := .str "Hello, World! 123",
          expected := .str "321 !dlroW ,olleH", category := "normal" } ] }

/-- The `palindrome-checker` suite of the README registry. -/
def palindromeSuite : RTestSuite :=
  { name := "Palindrome Checker",
    description := "Check if a string is a palindrome",
    testCases :=
      [ { name := "Empty String", input := .str "", expected := .bool true,
          category := "edge" },
        { name := "Null Input", input := .null, expected := .bool false,
          category := "edge" },
        { name := "Single Character", input := .str "a", expected := .bool true,
          category := "edge" },
        { name := "Valid Palindrome", input := .str "racecar", expected := .bool true,
          category := "normal" },
        { name := "Invalid Palindrome", input := .str "hello", expected := .bool false,
          category := "normal" },
        { name := "Large String (10k chars)",
          input := .str (String.mk (List.replicate 5000 'a' ++ 'b' :: List.replicate 5000 'a')),
          expected := .bool false, category := "performance" } ] }

/-- The `array-max` suite of the README registry. -/
def arrayMaxSuite : RTestSuite :=
  { name := "Array Maximum",
    description := "Find the maximum value in an array",
    testCases :=
      [ { name := "Empty Array", input := vnums [], expected := .null,
          category := "edge" },
        { name := "Null Input", input := .null, expected := .null,
          category := "edge" },
        { name := "Single Element", input := vnums [5], expected := .num 5,
          category := "edge" },
        { name := "Standard Case", input := vnums [1, 5, 3, 9, 2], expected := .num 9,
          category := "normal" },
        { name := "Large Array (10k items)",
          input := vnums ((List.range 10000).map (fun i => (i : ℚ))),
          expected := .num 9999, category := "performance" },
        { name := "Negative Numbers", input := vnums [-5, -2, -8, -1],
          expected := .num (-1), category := "normal" } ] }

/-- The possible outcomes of the JavaScript property access
`testSuites[problemType]`: one of the four own suites; a truthy non-suite
value inherited from `Object.prototype` (for tags such as `"toString"` or
`"constructor"`, bracket lookup walks the prototype chain, so the source's
`if (!testSuite)` guard does NOT fire); or `undefined`. -/
inductive SuiteLookup where
  | found (suite : RTestSuite)
  | inherited
  | absent

/-- Is the lookup one of the four registered suites? -/
def SuiteLookup.isFound : SuiteLookup → Bool
  | .found _ => true
  | _ => false

/-- The property names every plain object literal inherits from
`Object.prototype` (ECMA-262, Annex B legacy accessors included); for these
tags `testSuites[problemType]` is a truthy function or object, not a
suite. -/
def objectProtoKeys : List String :=
  ["constructor", "hasOwnProperty", "isPrototypeOf", "propertyIsEnumerable",
   "toLocaleString", "toString", "valueOf", "__defineGetter__",
   "__defineSetter__", "__lookupGetter__", "__lookupSetter__", "__proto__"]

/-- The `testSuites[problemType]` lookup of the README harness, prototype
chain included. -/
def lookupSuite (pt : String) : SuiteLookup :=
  if pt = "two-sum" then .found twoSumSuite
  else if pt = "string-reversal" then .found stringReversalSuite
  else if pt = "palindrome-checker" then .found palindromeSuite
  else if pt = "array-max" then .found arrayMaxSuite
  else if objectProtoKeys.contains pt then .inherited
  else .absent

/-- The message of the `TypeError` thrown by iterating `undefined`
(`for (const testCase of testSuite.testCases)` when the looked-up "suite"
is an inherited `Object.prototype` member, whose `testCases` property is
`undefined`).  Its exact text is engine-dependent - this is V8's - and the
theorems below rely only on the `"Code execution failed: "` prefix that the
source's outer catch prepends. -/
def undefinedIterMsg : String :=
  "undefined is not iterable (cannot read property Symbol(Symbol.iterator))"

/-- A README `TestResult` (one element of `runTestSuite`'s `results`). -/
structure RResult where
  name : String
  category : String
  input : Value
  expected : Value
  actual : Value
  passed : Bool
  executionTime : ℚ
  error : Option String

/-- A performance-issue note of the README harness. -/
structure RPerfIssue where
  test : String
  time : ℚ
  suggestion : String

/-- The README `summary` object (the unknown-problem-type return carries only
`passed`, `total` and `score`; the remaining fields are zero/empty there). -/
structure RSummary where
  passed : Nat
  total : Nat
  score : ℤ
  edgeCasesPassed : Nat
  normalCasesPassed : Nat
  performanceCasesPassed : Nat
  performanceIssues : List RPerfIssue

/-- The value returned by the README's `runTestSuite`. -/
structure RunOutcome where
  error : Option String
  results : List RResult
  summary : RSummary
  testSuiteName : Option String

/-- One iteration of the `for (const testCase of testSuite.testCases)` loop:
on success compare via `JSON.stringify`, on a thrown error record a failed
result with `actual: null`, `executionTime: 0` and the error message. -/
def runOneR (sub : HarnessSubmission) (dur : RTestCase → ℚ) (tc : RTestCase) :
    RResult :=
  match executeCodeR sub tc.input with
  | .ok v =>
      { name := tc.name, category := tc.category, input := tc.input,
        expected := tc.expected, actual := v,
        passed := stringifyEq v tc.expected,
        executionTime := round100 (dur tc), error := none }
  | .error e =>
      { name := tc.name, category := tc.category, input := tc.input,
        expected := tc.expected, actual := .null, passed := false,
        executionTime := 0, error := some e }

/-- The README's `runTestSuite(code, problemType)`: an absent problem type
(`testSuites[problemType]` is `undefined`) returns immediately via the
`!testSuite` guard with the `Unknown problem type` message; a
prototype-inherited tag passes that guard, so
`for (const testCase of testSuite.testCases)` iterates `undefined`, throws
a `TypeError` before any test runs, and the outer `catch` returns
`Code execution failed: ...` with empty results and the zero summary;
otherwise every registered test case is executed in order (on that branch
the outer catch is unreachable: all per-test work sits in the inner
try). -/
def runTestSuiteR (sub : HarnessSubmission) (dur : RTestCase → ℚ)
    (problemType : String) : RunOutcome :=
  match lookupSuite problemType with
  | .absent =>
      { error := some ("Unknown problem type: " ++ problemType),
        results := [],
        summary := { passed := 0, total := 0, score := 0,
                     edgeCasesPassed := 0, normalCasesPassed := 0,
                     performanceCasesPassed := 0, performanceIssues := [] },
        testSuiteName := none }
  | .inherited =>
      { error := some ("Code execution failed: " ++ undefinedIterMsg),
        results := [],
        summary := { passed := 0, total := 0, score := 0,
                     edgeCasesPassed := 0, normalCasesPassed := 0,
                     performanceCasesPassed := 0, performanceIssues := [] },
        testSuiteName := none }
  | .found suite =>
      let results := suite.testCases.map (runOneR sub dur)
      let passedTests := (results.filter (·.passed)).length
      let performanceIssues := suite.testCases.filterMap fun tc =>
        match executeCodeR sub tc.input with
        | .ok _ =>
            if tc.category == "performance" && dur tc > 1000 then
              some { test := tc.name, time := dur tc,
                     suggestion := "Consider optimizing your algorithm for better performance" }
            else none
        | .error _ => none
      { error := none,
        results := results,
        summary :=
          { passed := passedTests, total := results.length,
            score := round (((passedTests : ℚ) / (results.length : ℚ)) * 100),
            edgeCasesPassed := ((results.filter (fun r => r.category == "edge")).filter (·.passed)).length,
            normalCasesPassed := ((results.filter (fun r => r.category == "normal")).filter (·.passed)).length,
            performanceCasesPassed := ((results.filter (fun r => r.category == "performance")).filter (·.passed)).length,
            performanceIssues := performanceIssues },
        testSuiteName := some suite.name }

/-! ### Facts about the AST walk -/

/-- Characters of a successful position match occur in the searched list. -/
theorem matchesAt_mem : ∀ (p l : List Char), matchesAt p l = true → ∀ c ∈ p, c ∈ l
  | [], _, _, c, hc => absurd hc (List.not_mem_nil c)
  | _ :: _, [], h, _, _ => by simp [matchesAt] at h
  | a :: as, b :: bs, h, c, hc => by
      simp only [matchesAt, Bool.and_eq_true, beq_iff_eq] at h
      rcases List.mem_cons.mp hc with rfl | hc'
      · exact List.mem_cons.mpr (Or.inl h.1)
      · exact List.mem_cons.mpr (Or.inr (matchesAt_mem as bs h.2 c hc'))

/-- Characters of a successful substring search occur in the searched list. -/
theorem subOccurs_mem : ∀ (p l : List Char), subOccurs p l = true → ∀ c ∈ p, c ∈ l
  | p, [], h, c, hc => by
      cases p with
      | nil => exact absurd hc (List.not_mem_nil c)
      | cons a as => simp [subOccurs, matchesAt] at h
  | p, b :: bs, h, c, hc => by
      simp only [subOccurs, Bool.or_eq_true] at h
      rcases h with h | h
      · exact matchesAt_mem p (b :: bs) h c hc
      · exact List.mem_cons.mpr (Or.inr (subOccurs_mem p bs h c hc))

/-- The recursion heuristic can never fire: the search space is the constant
string `"[object Object]"`, which contains no `(` character, while the
pattern `functionName + "("` always ends in one. -/
theorem hasRecursiveCall_false (nm : String) : hasRecursiveCall nm = false := by
  by_contra h
  simp only [Bool.not_eq_false] at h
  have hmem := subOccurs_mem _ _ h (Char.ofNat 40) (by simp)
  revert hmem
  decide

mutual
/-- The walk never clears `hasNestedLoops`. -/
theorem nestedFlag_mono :
    ∀ (d : Nat) (s : TravState) (n : Node), s.hasNestedLoops = true →
      (analyzeNode d s n).hasNestedLoops = true
  | d, s, .loop _ others body, h => by
      simp only [analyzeNode]
      exact nestedFlag_mono d _ body
        (nestedFlagL_mono d _ others
          (nestedFlag_mono (d + 1) _ body (by simp [h])))
  | d, s, .funcNode id ch, h => by
      cases id with
      | some nm =>
          simp only [analyzeNode]
          exact nestedFlagL_mono d _ ch (by simpa using h)
      | none =>
          simp only [analyzeNode]
          exact nestedFlagL_mono d _ ch h
  | d, s, .awaitNode ch, h => by
      simp only [analyzeNode]
      exact nestedFlagL_mono d _ ch (by simpa using h)
  | d, s, .callNode _ ch, h => by
      simp only [analyzeNode]
      exact nestedFlagL_mono d _ ch h
  | d, s, .other ch, h => by
      simp only [analyzeNode]
      exact nestedFlagL_mono d _ ch h
/-- List version of `nestedFlag_mono`. -/
theorem nestedFlagL_mono :
    ∀ (d : Nat) (s : TravState) (l : NodeList), s.hasNestedLoops = true →
      (analyzeNodeList d s l).hasNestedLoops = true
  | _, _, .nil, h => h
  | d, s, .cons hd tl, h => by
      simp only [analyzeNodeList]
      exact nestedFlagL_mono d _ tl (nestedFlag_mono d s hd h)
end

mutual
/-- Visiting any loop at depth ≥ 1 sets `hasNestedLoops`. -/
theorem nestedFlag_of_deep :
    ∀ (d : Nat) (s : TravState) (n : Node), 1 ≤ d → containsLoop n = true →
      (analyzeNode d s n).hasNestedLoops = true
  | d, s, .loop _ others body, hd, _ => by
      simp only [analyzeNode]
      have hgt : d + 1 > 1 := by omega
      exact nestedFlag_mono d _ body
        (nestedFlagL_mono d _ others
          (nestedFlag_mono (d + 1) _ body (by simp [hgt])))
  | d, s, .funcNode id ch, hd, hc => by
      cases id with
      | some nm =>
          simp only [analyzeNode]
          exact nestedFlagL_of_deep d _ ch hd (by simpa [containsLoop] using hc)
      | none =>
          simp only [analyzeNode]
          exact nestedFlagL_of_deep d _ ch hd (by simpa [containsLoop] using hc)
  | d, s, .awaitNode ch, hd, hc => by
      simp only [analyzeNode]
      exact nestedFlagL_of_deep d _ ch hd (by simpa [containsLoop] using hc)
  | d, s, .callNode _ ch, hd, hc => by
      simp only [analyzeNode]
      exact nestedFlagL_of_deep d _ ch hd (by simpa [containsLoop] using hc)
  | d, s, .other ch, hd, hc => by
      simp only [analyzeNode]
      exact nestedFlagL_of_deep d _ ch hd (by simpa [containsLoop] using hc)
/-- List version of `nestedFlag_of_deep`. -/
theorem nestedFlagL_of_deep :
    ∀ (d : Nat) (s : TravState) (l : NodeList), 1 ≤ d → containsLoopL l = true →
      (analyzeNodeList d s l).hasNestedLoops = true
  | _, _, .nil, _, hc => by simp [containsLoopL] at hc
  | d, s, .cons hd tl, h1, hc => by
      simp only [analyzeNodeList]
      simp only [containsLoopL, Bool.or_eq_true] at hc
      rcases hc with hc | hc
      · exact nestedFlagL_mono d _ tl (nestedFlag_of_deep d s hd h1 hc)
      · exact nestedFlagL_of_deep d _ tl h1 hc
end

mutual
/-- A syntactically nested pair of loop statements anywhere in the subtree
sets `hasNestedLoops`, whatever the entry depth. -/
theorem nestedFlag_of_stmt :
    ∀ (d : Nat) (s : TravState) (n : Node), hasNestedLoopStmt n = true →
      (analyzeNode d s n).hasNestedLoops = true
  | d, s, .loop _ others body, h => by
      simp only [analyzeNode]
      simp only [hasNestedLoopStmt, Bool.or_eq_true] at h
      rcases h with (h | h) | h
      · exact nestedFlag_mono d _ body
          (nestedFlagL_mono d _ others
            (nestedFlag_of_deep (d + 1) _ body (by omega) h))
      · exact nestedFlag_mono d _ body (nestedFlagL_of_stmt d _ others h)
      · exact nestedFlag_mono d _ body
          (nestedFlagL_mono d _ others (nestedFlag_of_stmt (d + 1) _ body h))
  | d, s, .funcNode id ch, h => by
      cases id with
      | some nm =>
          simp only [analyzeNode]
          exact nestedFlagL_of_stmt d _ ch (by simpa [hasNestedLoopStmt] using h)
      | none =>
          simp only [analyzeNode]
          exact nestedFlagL_of_stmt d _ ch (by simpa [hasNestedLoopStmt] using h)
  | d, s, .awaitNode ch, h => by
      simp only [analyzeNode]
      exact nestedFlagL_of_stmt d _ ch (by simpa [hasNestedLoopStmt] using h)
  | d, s, .callNode _ ch, h => by
      simp only [analyzeNode]
      exact nestedFlagL_of_stmt d _ ch (by simpa [hasNestedLoopStmt] using h)
  | d, s, .other ch, h => by
      simp only [analyzeNode]
      exact nestedFlagL_of_stmt d _ ch (by simpa [hasNestedLoopStmt] using h)
/-- List version of `nestedFlag_of_stmt`. -/
theorem nestedFlagL_of_stmt :
    ∀ (d : Nat) (s : TravState) (l : NodeList), hasNestedLoopStmtL l = true →
      (analyzeNodeList d s l).hasNestedLoops = true
  | _, _, .nil, hc => by simp [hasNestedLoopStmtL] at hc
  | d, s, .cons hd tl, hc => by
      simp only [analyzeNodeList]
      simp only [hasNestedLoopStmtL, Bool.or_eq_true] at hc
      rcases hc with hc | hc
      · exact nestedFlagL_mono d _ tl (nestedFlag_of_stmt d s hd hc)
      · exact nestedFlagL_of_stmt d _ tl hc
end

mutual
/-- A loop-free subtree leaves `maxLoopDepth` and `hasNestedLoops`
untouched. -/
theorem analyzeNode_no_loop :
    ∀ (d : Nat) (s : TravState) (n : Node), containsLoop n = false →
      (analyzeNode d s n).maxLoopDepth = s.maxLoopDepth ∧
        (analyzeNode d s n).hasNestedLoops = s.hasNestedLoops
  | _, _, .loop _ _ _, h => by simp [containsLoop] at h
  | d, s, .funcNode id ch, h => by
      cases id with
      | some nm =>
          simp only [analyzeNode]
          exact analyzeNodeList_no_loop d _ ch (by simpa [containsLoop] using h)
      | none =>
          simp only [analyzeNode]
          exact analyzeNodeList_no_loop d _ ch (by simpa [containsLoop] using h)
  | d, s, .awaitNode ch, h => by
      simp only [analyzeNode]
      exact analyzeNodeList_no_loop d _ ch (by simpa [containsLoop] using h)
  | d, s, .callNode _ ch, h => by
      simp only [analyzeNode]
      exact analyzeNodeList_no_loop d _ ch (by simpa [containsLoop] using h)
  | d, s, .other ch, h => by
      simp only [analyzeNode]
      exact analyzeNodeList_no_loop d _ ch (by simpa [containsLoop] using h)
/-- List version of `analyzeNode_no_loop`. -/
theorem analyzeNodeList_no_loop :
    ∀ (d : Nat) (s : TravState) (l : NodeList), containsLoopL l = false →
      (analyzeNodeList d s l).maxLoopDepth = s.maxLoopDepth ∧
        (analyzeNodeList d s l).hasNestedLoops = s.hasNestedLoops
  | _, _, .nil, _ => ⟨rfl, rfl⟩
  | d, s, .cons hd tl, h => by
      simp only [analyzeNodeList]
      simp only [containsLoopL, Bool.or_eq_false_iff] at h
      have hh := analyzeNode_no_loop d s hd h.1
      have ht := analyzeNodeList_no_loop d (analyzeNode d s hd) tl h.2
      exact ⟨ht.1.trans hh.1, ht.2.trans hh.2⟩
end

mutual
/-- The walk never changes `hasRecursion` (consequence of
`hasRecursiveCall_false`): recursion detection is dead code. -/
theorem analyzeNode_hasRecursion :
    ∀ (d : Nat) (s : TravState) (n : Node),
      (analyzeNode d s n).hasRecursion = s.hasRecursion
  | d, s, .loop _ others body => by
      simp only [analyzeNode]
      exact (analyzeNode_hasRecursion d _ body).trans
        ((analyzeNodeList_hasRecursion d _ others).trans
          (analyzeNode_hasRecursion (d + 1) _ body))
  | d, s, .funcNode id ch => by
      cases id with
      | some nm =>
          simp only [analyzeNode]
          refine (analyzeNodeList_hasRecursion d _ ch).trans ?_
          simp [hasRecursiveCall_false]
      | none =>
          simp only [analyzeNode]
          exact analyzeNodeList_hasRecursion d _ ch
  | d, s, .awaitNode ch => by
      simp only [analyzeNode]
      exact analyzeNodeList_hasRecursion d _ ch
  | d, s, .callNode _ ch => by
      simp only [analyzeNode]
      exact analyzeNodeList_hasRecursion d _ ch
  | d, s, .other ch => by
      simp only [analyzeNode]
      exact analyzeNodeList_hasRecursion d _ ch
/-- List version of `analyzeNode_hasRecursion`. -/
theorem analyzeNodeList_hasRecursion :
    ∀ (d : Nat) (s : TravState) (l : NodeList),
      (analyzeNodeList d s l).hasRecursion = s.hasRecursion
  | _, _, .nil => rfl
  | d, s, .cons hd tl => by
      simp only [analyzeNodeList]
      exact (analyzeNodeList_hasRecursion d _ tl).trans
        (analyzeNode_hasRecursion d s hd)
end

/-- Recursion detection is dead code at the `analyzeComplexity` level as
well: the reported `hasRecursion` is always `false`. -/
theorem analyzeComplexity_hasRecursion_false (code : String) (ast : Node) :
    (analyzeComplexity code ast).hasRecursion = false := by
  have hr := analyzeNode_hasRecursion 0 ⟨0, false, false, false⟩ ast
  simpa [analyzeComplexity] using hr

/-- C2: for every submission (that parses) containing two syntactically
nested loop statements - a loop statement whose body subtree contains
another loop statement, i.e. loop nesting depth at least 2 - the complexity
analysis reports `hasNestedLoops = true` and `timeComplexity = "O(n²)"`. -/
theorem nested_loops_quadratic (code : String) (ast : Node)
    (h : hasNestedLoopStmt ast = true) :
    (analyzeComplexity code ast).hasNestedLoops = true ∧
      (analyzeComplexity code ast).timeComplexity = "O(n²)" := by
  have hflag := nestedFlag_of_stmt 0 ⟨0, false, false, false⟩ ast h
  refine ⟨?_, ?_⟩
  · simpa [analyzeComplexity] using hflag
  · simp [analyzeComplexity, determineTimeComplexity, hflag]

/-- The AST of `while (a) { while (b) { } }`: a while statement whose block
body contains a second while statement. -/
def c2WitnessAst : Node :=
  .loop .whileLoop (.cons (.other .nil) .nil)
    (.other (.cons (.loop .whileLoop (.cons (.other .nil) .nil) (.other .nil)) .nil))

/-- Witness for C2 at the concrete nested-while submission. -/
theorem nested_loops_quadratic_witness :
    hasNestedLoopStmt c2WitnessAst = true ∧
      ((analyzeComplexity "while (a) \x7b while (b) \x7b \x7d \x7d" c2WitnessAst).hasNestedLoops = true ∧
        (analyzeComplexity "while (a) \x7b while (b) \x7b \x7d \x7d" c2WitnessAst).timeComplexity = "O(n²)") :=
  ⟨by decide, nested_loops_quadratic "while (a) \x7b while (b) \x7b \x7d \x7d" c2WitnessAst (by decide)⟩

/-- Source text of the C5 counterexample submission: no loop statements, no
recursive self-call, but a `.sort(` call. -/
def c5Code : String := "const sorted = [3, 1, 2].sort();"

/-- The acorn tree of `c5Code`: Program ▸ VariableDeclaration ▸
VariableDeclarator ▸ (Identifier, CallExpression whose callee is the
MemberExpression `[3, 1, 2].sort`). -/
def c5Ast : Node :=
  .other (.cons
    (.other (.cons
      (.other (.cons (.other .nil)
        (.cons (.callNode none
          (.cons (.other (.cons
              (.other (.cons (.other .nil) (.cons (.other .nil) (.cons (.other .nil) .nil))))
              (.cons (.other .nil) .nil))) .nil)) .nil)))
      .nil))
    .nil)

/-- Counterexample to C5 as stated: a submission with zero loop statements
and no recursive self-call for which the analysis reports `"O(n log n)"`,
not `"O(1)"`, because the source contains `.sort(`. -/
theorem no_loops_not_constant_time_counterexample :
    containsLoop c5Ast = false ∧ hasSelfCall c5Ast = false ∧
      (analyzeComplexity c5Code c5Ast).timeComplexity = "O(n log n)" ∧
      (analyzeComplexity c5Code c5Ast).timeComplexity ≠ "O(1)" := by
  decide

/-- C5 amended: for every submission (that parses) with zero loop
statements, no recursive self-call, and no occurrence of `.sort(` in the
source text, the complexity analysis returns `timeComplexity = "O(1)"`. -/
theorem no_loops_no_sort_constant_time (code : String) (ast : Node)
    (hl : containsLoop ast = false) (_hs : hasSelfCall ast = false)
    (hsort : strIncludes code ".sort(" = false) :
    (analyzeComplexity code ast).timeComplexity = "O(1)" := by
  have hnl := analyzeNode_no_loop 0 ⟨0, false, false, false⟩ ast hl
  have hr := analyzeNode_hasRecursion 0 ⟨0, false, false, false⟩ ast
  simp [analyzeComplexity, determineTimeComplexity, hnl.1, hnl.2, hr, hsort]

/-- Witness for the amended C5 at the concrete loop-free, sort-free
submission `const x = 1;`. -/
theorem no_loops_no_sort_constant_time_witness :
    containsLoop (Node.other (.cons (.other .nil) .nil)) = false ∧
      hasSelfCall (Node.other (.cons (.other .nil) .nil)) = false ∧
      strIncludes "const x = 1;" ".sort(" = false ∧
      (analyzeComplexity "const x = 1;" (Node.other (.cons (.other .nil) .nil))).timeComplexity = "O(1)" :=
  ⟨by decide, by decide, by decide,
    no_loops_no_sort_constant_time "const x = 1;" (Node.other (.cons (.other .nil) .nil))
      (by decide) (by decide) (by decide)⟩

/-- Source text of the C6 failing input: a function that plainly calls
itself by name. -/
def c6Code : String :=
  "function fact(n) \x7b if (n <= 1) \x7b return 1; \x7d return n * fact(n - 1); \x7d"

/-- The acorn tree of `c6Code`: Program ▸ FunctionDeclaration `fact` whose
body contains `fact(n - 1)` as a call to the plain identifier `fact`. -/
def c6Ast : Node :=
  .other (.cons
    (.funcNode (some "fact")
      (.cons (.other .nil)
        (.cons (.other .nil)
          (.cons
            (.other (.cons
              (.other (.cons (.other .nil)
                (.cons (.other (.cons (.other (.cons (.other .nil) .nil)) .nil)) .nil)))
              (.cons
                (.other (.cons
                  (.other (.cons (.other .nil)
                    (.cons (.callNode (some "fact") (.cons (.other .nil) .nil)) .nil)))
                  .nil))
                .nil)))
            .nil))))
    .nil)

/-- C6 failing-input evaluation: the submission contains a user-defined
function that calls itself by name, yet the analysis reports
`hasRecursion = false` and `timeComplexity = "O(1)"` (the recursion
heuristic searches `ast.toString() = "[object Object]"` instead of the
source text, so it can never fire). -/
theorem self_call_not_detected :
    hasSelfCall c6Ast = true ∧
      (analyzeComplexity c6Code c6Ast).hasRecursion = false ∧
      (analyzeComplexity c6Code c6Ast).timeComplexity = "O(1)" := by
  decide

/-! ### Scoring, harness and registry theorems -/

/-- A string append whose left part is nonempty is nonempty. -/
theorem append_ne_empty_left (s t : String) (h : 0 < s.length) : s ++ t ≠ "" := by
  intro hc
  have h2 := congrArg String.length hc
  rw [String.length_append] at h2
  have h3 : ("" : String).length = 0 := rfl
  omega

/-- C1: with the default weights, the overall score is exactly the spec's
weighted sum `0.40·correctness + 0.30·efficiency + 0.20·readability +
0.10·bestPractices`, rounded to the nearest integer, for any combination of
sub-scores in `[0,100]`. -/
theorem overall_score_weighted_sum (c e r b : ℚ)
    (hc0 : 0 ≤ c) (hc1 : c ≤ 100) (he0 : 0 ≤ e) (he1 : e ≤ 100)
    (hr0 : 0 ≤ r) (hr1 : r ≤ 100) (hb0 : 0 ≤ b) (hb1 : b ≤ 100) :
    calculateOverallScore defaultWeights c e r b = specOverallFormula c e r b := by
  unfold calculateOverallScore specOverallFormula defaultWeights
  congr 1
  ring

/-- Witness for C1 at sub-scores (80, 70, 60, 50); the weighted sum is 70. -/
theorem overall_score_weighted_sum_witness :
    ((0:ℚ) ≤ 80 ∧ (80:ℚ) ≤ 100 ∧ (0:ℚ) ≤ 70 ∧ (70:ℚ) ≤ 100 ∧
      (0:ℚ) ≤ 60 ∧ (60:ℚ) ≤ 100 ∧ (0:ℚ) ≤ 50 ∧ (50:ℚ) ≤ 100) ∧
      calculateOverallScore defaultWeights 80 70 60 50 = specOverallFormula 80 70 60 50 ∧
      calculateOverallScore defaultWeights 80 70 60 50 = 70 :=
  ⟨by norm_num,
    overall_score_weighted_sum 80 70 60 50 (by norm_num) (by norm_num) (by norm_num)
      (by norm_num) (by norm_num) (by norm_num) (by norm_num) (by norm_num),
    by norm_num [calculateOverallScore, defaultWeights, round_eq]⟩

/-- Both branches of `executeTests` keep the test case's name. -/
theorem runOneLI_name (behavior : Value → Except String Value)
    (dur : LITestCase → ℚ) (tc : LITestCase) :
    (runOneLI behavior dur tc).name = tc.name := by
  unfold runOneLI
  cases executeCodeLI behavior tc.input <;> rfl

/-- C3: a test case during which the submission throws yields a result with
`passed = false` and a non-empty error message, and every test case of the
battery (those after the failing one included) still produces its result, in
order. -/
theorem throwing_test_isolated (behavior : Value → Except String Value)
    (dur : LITestCase → ℚ) (maxT : ℚ) (code : String)
    (testCases : List LITestCase) (i : Nat) (msg : String)
    (hi : i < testCases.length)
    (hthrow : behavior (testCases[i].input) = .error msg) :
    ((executeTestsLI behavior dur maxT code testCases).1.map (fun r => r.name)
        = testCases.map (fun tc => tc.name)) ∧
      ((executeTestsLI behavior dur maxT code testCases).1[i]?.map (fun r => r.passed)
        = some false) ∧
      ((executeTestsLI behavior dur maxT code testCases).1[i]?.bind (fun r => r.error)
        = some ("Execution error: " ++ msg)) ∧
      ("Execution error: " ++ msg) ≠ "" := by
  have hget : testCases[i]? = some testCases[i] := List.getElem?_eq_getElem hi
  refine ⟨?_, ?_, ?_, append_ne_empty_left _ _ (by decide)⟩
  · simp [executeTestsLI, List.map_map, Function.comp, runOneLI_name]
  · simp [executeTestsLI, List.getElem?_map, hget, runOneLI, executeCodeLI, hthrow]
  · simp [executeTestsLI, List.getElem?_map, hget, runOneLI, executeCodeLI, hthrow]

/-- Witness for C3: a one-test battery whose submission always throws. -/
theorem throwing_test_isolated_witness :
    (0 < ([⟨"t1", "Test 1", "edge", .null, .null⟩] : List LITestCase).length) ∧
      ((fun _ => Except.error "boom" : Value → Except String Value)
          (([⟨"t1", "Test 1", "edge", .null, .null⟩] : List LITestCase)[0].input)
        = .error "boom") ∧
      (((executeTestsLI (fun _ => .error "boom") (fun _ => 0) 1000
            "function main(input) \x7b throw new Error(); \x7d"
            [⟨"t1", "Test 1", "edge", .null, .null⟩]).1.map (fun r => r.name)
          = ([⟨"t1", "Test 1", "edge", .null, .null⟩] : List LITestCase).map (fun tc => tc.name)) ∧
        ((executeTestsLI (fun _ => .error "boom") (fun _ => 0) 1000
            "function main(input) \x7b throw new Error(); \x7d"
            [⟨"t1", "Test 1", "edge", .null, .null⟩]).1[0]?.map (fun r => r.passed)
          = some false) ∧
        ((executeTestsLI (fun _ => .error "boom") (fun _ => 0) 1000
            "function main(input) \x7b throw new Error(); \x7d"
            [⟨"t1", "Test 1", "edge", .null, .null⟩]).1[0]?.bind (fun r => r.error)
          = some ("Execution error: " ++ "boom")) ∧
        ("Execution error: " ++ "boom") ≠ "") :=
  ⟨by decide, rfl,
    throwing_test_isolated (fun _ => .error "boom") (fun _ => 0) 1000
      "function main(input) \x7b throw new Error(); \x7d"
      [⟨"t1", "Test 1", "edge", .null, .null⟩] 0 "boom" (by decide) rfl⟩

/-- C10: `executeTests` on an empty test-case list returns an empty result
list together with metrics whose `averageTime` is `NaN` (the unguarded
division `0 / 0`), whose `maxTime` is `-Infinity` (`Math.max()` of no
arguments) and whose `minTime` is `Infinity` (`Math.min()` of no
arguments) - and, being a total function of its inputs here, it does not
throw. -/
theorem empty_battery_metrics (behavior : Value → Except String Value)
    (dur : LITestCase → ℚ) (maxT : ℚ) (code : String) :
    (executeTestsLI behavior dur maxT code []).1 = [] ∧
      (executeTestsLI behavior dur maxT code []).2.averageTime = .nan ∧
      (executeTestsLI behavior dur maxT code []).2.maxTime = .negInfty ∧
      (executeTestsLI behavior dur maxT code []).2.minTime = .posInfty := by
  refine ⟨rfl, ?_, rfl, rfl⟩
  simp [executeTestsLI, jsDivByCount]

/-- C4: for every explicit problem-type tag that is not one of the four
registered suites, `runTestSuite` returns with zero test results, a zero
total and a non-empty explicit error message, and no test case is
executed - via the `Unknown problem type` early return when the tag is
absent altogether, or via the outer catch (`Code execution failed`) when
the tag names an `Object.prototype`-inherited property, which passes the
`!testSuite` guard but makes the test loop throw before any test runs. -/
theorem unknown_problem_type_aborts (sub : HarnessSubmission)
    (dur : RTestCase → ℚ) (pt : String)
    (h : (lookupSuite pt).isFound = false) :
    (runTestSuiteR sub dur pt).results = [] ∧
      (runTestSuiteR sub dur pt).summary.total = 0 ∧
      ((runTestSuiteR sub dur pt).error = some ("Unknown problem type: " ++ pt) ∨
        (runTestSuiteR sub dur pt).error
          = some ("Code execution failed: " ++ undefinedIterMsg)) ∧
      (∀ msg, (runTestSuiteR sub dur pt).error = some msg → msg ≠ "") := by
  cases hlk : lookupSuite pt with
  | found suite => rw [hlk] at h; simp [SuiteLookup.isFound] at h
  | inherited =>
      have herr : (runTestSuiteR sub dur pt).error
          = some ("Code execution failed: " ++ undefinedIterMsg) := by
        simp [runTestSuiteR, hlk]
      refine ⟨by simp [runTestSuiteR, hlk], by simp [runTestSuiteR, hlk],
        Or.inr herr, ?_⟩
      intro msg hmsg
      rw [herr] at hmsg
      rw [← Option.some.inj hmsg]
      exact append_ne_empty_left _ _ (by decide)
  | absent =>
      have herr : (runTestSuiteR sub dur pt).error
          = some ("Unknown problem type: " ++ pt) := by
        simp [runTestSuiteR, hlk]
      refine ⟨by simp [runTestSuiteR, hlk], by simp [runTestSuiteR, hlk],
        Or.inl herr, ?_⟩
      intro msg hmsg
      rw [herr] at hmsg
      rw [← Option.some.inj hmsg]
      exact append_ne_empty_left _ _ (by decide)

/-- Witness for C4 at two concrete tags: the unregistered `"linked-list"`
(absent: the `Unknown problem type` early return) and `"toString"` (an
`Object.prototype`-inherited key: `Code execution failed` from the outer
catch). -/
theorem unknown_problem_type_aborts_witness :
    ((lookupSuite "linked-list").isFound = false ∧
      ((runTestSuiteR noEntrySub (fun _ => 0) "linked-list").results = [] ∧
        (runTestSuiteR noEntrySub (fun _ => 0) "linked-list").summary.total = 0 ∧
        ((runTestSuiteR noEntrySub (fun _ => 0) "linked-list").error
            = some ("Unknown problem type: " ++ "linked-list") ∨
          (runTestSuiteR noEntrySub (fun _ => 0) "linked-list").error
            = some ("Code execution failed: " ++ undefinedIterMsg)) ∧
        (∀ msg, (runTestSuiteR noEntrySub (fun _ => 0) "linked-list").error = some msg →
          msg ≠ ""))) ∧
      ((lookupSuite "toString").isFound = false ∧
        ((runTestSuiteR noEntrySub (fun _ => 0) "toString").results = [] ∧
          (runTestSuiteR noEntrySub (fun _ => 0) "toString").summary.total = 0 ∧
          ((runTestSuiteR noEntrySub (fun _ => 0) "toString").error
              = some ("Unknown problem type: " ++ "toString") ∨
            (runTestSuiteR noEntrySub (fun _ => 0) "toString").error
              = some ("Code execution failed: " ++ undefinedIterMsg)) ∧
          (∀ msg, (runTestSuiteR noEntrySub (fun _ => 0) "toString").error = some msg →
            msg ≠ ""))) :=
  ⟨⟨by decide, unknown_problem_type_aborts noEntrySub (fun _ => 0) "linked-list" (by decide)⟩,
    ⟨by decide, unknown_problem_type_aborts noEntrySub (fun _ => 0) "toString" (by decide)⟩⟩

/-- Comparing `null` against a value via `JSON.stringify` equality succeeds
exactly when that value is `null`. -/
theorem stringifyEq_null (v : Value) : stringifyEq .null v = v.isNullB := by
  cases v <;> rfl

/-- C9: when the submission defines none of the recognized entry functions,
the wrapper returns `null` for every test case with no recorded error, so a
test case passes exactly when its registered expected output is `null`. -/
theorem no_entry_passes_null_expectations (dur : RTestCase → ℚ) (pt : String)
    (suite : RTestSuite) (h : lookupSuite pt = .found suite) :
    ((runTestSuiteR noEntrySub dur pt).results.map (fun r => r.passed)
        = suite.testCases.map (fun tc => tc.expected.isNullB)) ∧
      ((runTestSuiteR noEntrySub dur pt).results.map (fun r => r.error)
        = suite.testCases.map (fun _ => (none : Option String))) ∧
      ((runTestSuiteR noEntrySub dur pt).results.map (fun r => r.actual)
        = suite.testCases.map (fun _ => Value.null)) := by
  have hexec : ∀ w : Value, executeCodeR noEntrySub w = .ok .null := fun _ => rfl
  have hpass : ∀ tc, (runOneR noEntrySub dur tc).passed = tc.expected.isNullB := by
    intro tc; simp [runOneR, hexec, stringifyEq_null]
  have herr : ∀ tc, (runOneR noEntrySub dur tc).error = none := by
    intro tc; simp [runOneR, hexec]
  have hact : ∀ tc, (runOneR noEntrySub dur tc).actual = Value.null := by
    intro tc; simp [runOneR, hexec]
  have hres : (runTestSuiteR noEntrySub dur pt).results
      = suite.testCases.map (runOneR noEntrySub dur) := by
    simp [runTestSuiteR, h]
  refine ⟨?_, ?_, ?_⟩ <;> rw [hres, List.map_map]
  · exact List.map_congr_left fun tc _ => hpass tc
  · exact List.map_congr_left fun tc _ => herr tc
  · exact List.map_congr_left fun tc _ => hact tc

/-- Witness for C9 at the `array-max` suite (whose `Empty Array` and
`Null Input` cases expect `null` and are therefore the passing ones). -/
theorem no_entry_passes_null_expectations_witness :
    lookupSuite "array-max" = SuiteLookup.found arrayMaxSuite ∧
      (((runTestSuiteR noEntrySub (fun _ => 0) "array-max").results.map (fun r => r.passed)
          = arrayMaxSuite.testCases.map (fun tc => tc.expected.isNullB)) ∧
        ((runTestSuiteR noEntrySub (fun _ => 0) "array-max").results.map (fun r => r.error)
          = arrayMaxSuite.testCases.map (fun _ => (none : Option String))) ∧
        ((runTestSuiteR noEntrySub (fun _ => 0) "array-max").results.map (fun r => r.actual)
          = arrayMaxSuite.testCases.map (fun _ => Value.null))) :=
  ⟨rfl, no_entry_passes_null_expectations (fun _ => 0) "array-max" arrayMaxSuite rfl⟩

/-- A passing performance test result that ran for 1500 ms (over the 1000 ms
threshold). -/
def slowPassResult : LIResult :=
  { id := "perf-1", name := "Large Dataset", category := "performance",
    input := .null, expected := .null, actual := some .null,
    passed := true, executionTime := 1500, error := none }

/-- Counterexample to C7 as stated: for this result a silent-failure entry
IS recorded (a `timeout` entry) although the test did not fail at all, so
"recorded iff failed with no captured error" is false. -/
theorem silent_failure_iff_counterexample :
    ¬ ((detectSilentFailures 1000 [slowPassResult] ≠ []) ↔
        (slowPassResult.passed = false ∧ errFalsy slowPassResult.error = true)) := by
  decide

/-- C7 amended: the `wrong-output` entries of `detectSilentFailures`
correspond exactly (in order) to the results that failed with a falsy
`error`; in addition, a `timeout` entry is recorded for every result whose
execution time exceeds the threshold, regardless of pass/fail. -/
theorem silent_failure_classification (maxT : ℚ) (results : List LIResult) :
    ((detectSilentFailures maxT results).filter (fun en => en.type == "wrong-output")
        = (results.filter (fun r => !r.passed && errFalsy r.error)).map
            (fun r => wrongOutputEntry r.name)) ∧
      ((detectSilentFailures maxT results).filter (fun en => en.type == "timeout")
        = (results.filter (fun r => decide (r.executionTime > maxT))).map
            (fun r => timeoutEntry r.name)) := by
  induction results with
  | nil => exact ⟨rfl, rfl⟩
  | cons r rs ih =>
      obtain ⟨ih1, ih2⟩ := ih
      have hstep : detectSilentFailures maxT (r :: rs)
          = ((if !r.passed && errFalsy r.error then [wrongOutputEntry r.name] else [])
              ++ (if r.executionTime > maxT then [timeoutEntry r.name] else []))
            ++ detectSilentFailures maxT rs := by
        simp [detectSilentFailures]
      constructor
      · rw [hstep, List.filter_append, List.filter_append, ih1]
        by_cases h1 : (!r.passed && errFalsy r.error) = true
        · by_cases h2 : r.executionTime > maxT
          · simp [h1, h2, wrongOutputEntry, timeoutEntry, List.filter_cons]
          · simp [h1, h2, wrongOutputEntry, List.filter_cons]
        · by_cases h2 : r.executionTime > maxT
          · simp [h1, h2, timeoutEntry, List.filter_cons]
          · simp [h1, h2, List.filter_cons]
      · rw [hstep, List.filter_append, List.filter_append, ih2]
        by_cases h1 : (!r.passed && errFalsy r.error) = true
        · by_cases h2 : r.executionTime > maxT
          · simp [h1, h2, wrongOutputEntry, timeoutEntry, List.filter_cons]
          · simp [h1, h2, wrongOutputEntry, List.filter_cons]
        · by_cases h2 : r.executionTime > maxT
          · simp [h1, h2, timeoutEntry, List.filter_cons]
          · simp [h1, h2, List.filter_cons]

/-- Counterexample to C8 as stated: at
(efficiency 99, comment coverage 99, pass rate 100, best practices 99) the
rounded `score` field (1) differs from the sum of the individually rounded
category fields (0); and at (26, 100, 100, 100) the unrounded total is 29.6,
so the record carries `score = 30` yet `level = "low"`, contradicting the
claimed "medium for 30-50" reading of the score field. -/
theorem technical_debt_mismatch :
    ((assessTechnicalDebt 99 99 100 99).score
        ≠ (assessTechnicalDebt 99 99 100 99).complexity
          + (assessTechnicalDebt 99 99 100 99).documentation
          + (assessTechnicalDebt 99 99 100 99).testing
          + (assessTechnicalDebt 99 99 100 99).architectural) ∧
      ((assessTechnicalDebt 26 100 100 100).score = 30 ∧
        (assessTechnicalDebt 26 100 100 100).level = "low") := by
  refine ⟨?_, ?_, ?_⟩
  · norm_num [assessTechnicalDebt, round_eq]
  · norm_num [assessTechnicalDebt, round_eq]
  · norm_num [assessTechnicalDebt]

/-- C8 amended: the `score` field equals the exact weighted debt total
rounded once - so it can differ from the sum of the four individually
rounded category fields, though by at most 2 - the score lies in [0,100],
and the `level` is derived from the unrounded total: `critical` for
total ≥ 70, `high` for 50 ≤ total < 70, `medium` for 30 ≤ total < 50 and
`low` for total < 30. -/
theorem technical_debt_structure (e c p b : ℚ)
    (he0 : 0 ≤ e) (_he1 : e ≤ 100) (hc0 : 0 ≤ c) (_hc1 : c ≤ 100)
    (hp0 : 0 ≤ p) (_hp1 : p ≤ 100) (hb0 : 0 ≤ b) (_hb1 : b ≤ 100) :
    (assessTechnicalDebt e c p b).score = round (totalDebt e c p b) ∧
      0 ≤ (assessTechnicalDebt e c p b).score ∧
      (assessTechnicalDebt e c p b).score ≤ 100 ∧
      ((assessTechnicalDebt e c p b).level = "critical" ↔ 70 ≤ totalDebt e c p b) ∧
      ((assessTechnicalDebt e c p b).level = "high" ↔
        50 ≤ totalDebt e c p b ∧ totalDebt e c p b < 70) ∧
      ((assessTechnicalDebt e c p b).level = "medium" ↔
        30 ≤ totalDebt e c p b ∧ totalDebt e c p b < 50) ∧
      ((assessTechnicalDebt e c p b).level = "low" ↔ totalDebt e c p b < 30) ∧
      |(assessTechnicalDebt e c p b).score
          - ((assessTechnicalDebt e c p b).complexity
            + (assessTechnicalDebt e c p b).documentation
            + (assessTechnicalDebt e c p b).testing
            + (assessTechnicalDebt e c p b).architectural)| ≤ 2 := by
  have hA0 : (0:ℚ) ≤ max 0 (100 - e) := le_max_left 0 _
  have hB0 : (0:ℚ) ≤ max 0 (100 - c) := le_max_left 0 _
  have hC0 : (0:ℚ) ≤ max 0 (100 - p) := le_max_left 0 _
  have hD0 : (0:ℚ) ≤ max 0 (100 - b) := le_max_left 0 _
  have hA1 : max 0 (100 - e) ≤ 100 := max_le (by norm_num) (by linarith)
  have hB1 : max 0 (100 - c) ≤ 100 := max_le (by norm_num) (by linarith)
  have hC1 : max 0 (100 - p) ≤ 100 := max_le (by norm_num) (by linarith)
  have hD1 : max 0 (100 - b) ≤ 100 := max_le (by norm_num) (by linarith)
  have hsumT : totalDebt e c p b
      = max 0 (100 - e) * (4/10) + max 0 (100 - c) * (2/10)
        + max 0 (100 - p) * (3/10) + max 0 (100 - b) * (1/10) := rfl
  have hT0 : 0 ≤ totalDebt e c p b := by
    rw [hsumT]; linarith
  have hT100 : totalDebt e c p b ≤ 100 := by
    rw [hsumT]; linarith
  have hscore : (assessTechnicalDebt e c p b).score = round (totalDebt e c p b) := rfl
  have hlevel : (assessTechnicalDebt e c p b).level
      = (if 70 ≤ totalDebt e c p b then "critical"
         else if 50 ≤ totalDebt e c p b then "high"
         else if 30 ≤ totalDebt e c p b then "medium" else "low") := rfl
  refine ⟨hscore, ?_, ?_, ?_, ?_, ?_, ?_, ?_⟩
  · rw [hscore, round_eq, Int.le_floor]
    push_cast
    linarith
  · rw [hscore, round_eq]
    calc ⌊totalDebt e c p b + 1/2⌋ ≤ ⌊(201:ℚ)/2⌋ := Int.floor_le_floor (by linarith)
      _ = 100 := by norm_num
  · rw [hlevel]
    split_ifs with h1 h2 h3 <;> simp <;>
      first
        | linarith
        | (constructor <;> linarith)
        | (rintro ⟨u, v⟩; linarith)
        | (intro hcon; linarith)
  · rw [hlevel]
    split_ifs with h1 h2 h3 <;> simp <;>
      first
        | linarith
        | (constructor <;> linarith)
        | (rintro ⟨u, v⟩; linarith)
        | (intro hcon; linarith)
  · rw [hlevel]
    split_ifs with h1 h2 h3 <;> simp <;>
      first
        | linarith
        | (constructor <;> linarith)
        | (rintro ⟨u, v⟩; linarith)
        | (intro hcon; linarith)
  · rw [hlevel]
    split_ifs with h1 h2 h3 <;> simp <;>
      first
        | linarith
        | (constructor <;> linarith)
        | (rintro ⟨u, v⟩; linarith)
        | (intro hcon; linarith)
  · have hTb := abs_le.mp (abs_sub_round (totalDebt e c p b))
    have hAb := abs_le.mp (abs_sub_round (max 0 (100 - e) * (4/10)))
    have hBb := abs_le.mp (abs_sub_round (max 0 (100 - c) * (2/10)))
    have hCb := abs_le.mp (abs_sub_round (max 0 (100 - p) * (3/10)))
    have hDb := abs_le.mp (abs_sub_round (max 0 (100 - b) * (1/10)))
    have hub : ((round (totalDebt e c p b)
          - (round (max 0 (100 - e) * (4/10)) + round (max 0 (100 - c) * (2/10))
            + round (max 0 (100 - p) * (3/10)) + round (max 0 (100 - b) * (1/10))) : ℤ) : ℚ)
        ≤ 5/2 := by
      push_cast
      linarith [hsumT, hTb.1, hTb.2, hAb.1, hAb.2, hBb.1, hBb.2, hCb.1, hCb.2, hDb.1, hDb.2]
    have hlb : (-(5/2) : ℚ) ≤ ((round (totalDebt e c p b)
          - (round (max 0 (100 - e) * (4/10)) + round (max 0 (100 - c) * (2/10))
            + round (max 0 (100 - p) * (3/10)) + round (max 0 (100 - b) * (1/10))) : ℤ) : ℚ) := by
      push_cast
      linarith [hsumT, hTb.1, hTb.2, hAb.1, hAb.2, hBb.1, hBb.2, hCb.1, hCb.2, hDb.1, hDb.2]
    have h3 : (round (totalDebt e c p b)
          - (round (max 0 (100 - e) * (4/10)) + round (max 0 (100 - c) * (2/10))
            + round (max 0 (100 - p) * (3/10)) + round (max 0 (100 - b) * (1/10))) : ℤ) < 3 := by
      exact_mod_cast lt_of_le_of_lt hub (by norm_num : (5/2 : ℚ) < 3)
    have h4 : (-3 : ℤ) < round (totalDebt e c p b)
          - (round (max 0 (100 - e) * (4/10)) + round (max 0 (100 - c) * (2/10))
            + round (max 0 (100 - p) * (3/10)) + round (max 0 (100 - b) * (1/10))) := by
      exact_mod_cast lt_of_lt_of_le (by norm_num : (-3 : ℚ) < -(5/2)) hlb
    have hgoal : |round (totalDebt e c p b)
          - (round (max 0 (100 - e) * (4/10)) + round (max 0 (100 - c) * (2/10))
            + round (max 0 (100 - p) * (3/10)) + round (max 0 (100 - b) * (1/10)))| ≤ (2:ℤ) := by
      rw [abs_le]
      omega
    exact hgoal

/-- Witness for the amended C8 at inputs (50, 50, 50, 50), whose exact debt
total is 50 (level `high`). -/
theorem technical_debt_structure_witness :
    ((0:ℚ) ≤ 50 ∧ (50:ℚ) ≤ 100) ∧
      ((assessTechnicalDebt 50 50 50 50).score = round (totalDebt 50 50 50 50) ∧
        0 ≤ (assessTechnicalDebt 50 50 50 50).score ∧
        (assessTechnicalDebt 50 50 50 50).score ≤ 100 ∧
        ((assessTechnicalDebt 50 50 50 50).level = "critical" ↔ 70 ≤ totalDebt 50 50 50 50) ∧
        ((assessTechnicalDebt 50 50 50 50).level = "high" ↔
          50 ≤ totalDebt 50 50 50 50 ∧ totalDebt 50 50 50 50 < 70) ∧
        ((assessTechnicalDebt 50 50 50 50).level = "medium" ↔
          30 ≤ totalDebt 50 50 50 50 ∧ totalDebt 50 50 50 50 < 50) ∧
        ((assessTechnicalDebt 50 50 50 50).level = "low" ↔ totalDebt 50 50 50 50 < 30) ∧
        |(assessTechnicalDebt 50 50 50 50).score
            - ((assessTechnicalDebt 50 50 50 50).complexity
              + (assessTechnicalDebt 50 50 50 50).documentation
              + (assessTechnicalDebt 50 50 50 50).testing
              + (assessTechnicalDebt 50 50 50 50).architectural)| ≤ 2) :=
  ⟨⟨by norm_num, by norm_num⟩,
    technical_debt_structure 50 50 50 50 (by norm_num) (by norm_num) (by norm_num)
      (by norm_num) (by norm_num) (by norm_num) (by norm_num) (by norm_num)⟩
